import Mathlib

set_option linter.unusedSectionVars false

/-
Verification of the scarabee resonance self-shielding module (`NDLibrary`,
`nd_library.cpp`) and the Yamamoto-Tabuchi polar quadrature tables
(`yamamoto_tabuchi.cpp`).

The embedding is generic over a linear ordered field `K` standing for the
C++ `double` values (rational instantiations are used for concrete
evaluation, the real instantiation for statements involving square roots).
Machine functions `std::sqrt` and `std::asin` together with the constant
`PI` are passed explicitly, so that a statement may instantiate them with
`Real.sqrt`, `Real.arcsin` and `Real.pi`.  Energy groups are indexed by
`Fin G`; temperature and dilution table axes are indexed by `ℕ` (the C++
`std::size_t`), with the tabulated tensors modelled as total functions and
the in-bounds property of every index the code forms proved separately.
-/

namespace Scarabee

variable {K : Type} [LinearOrderedField K] {G : ℕ}

/-- Multigroup cross-section container `CrossSection`.  Modelled from the spec:
`data/cross_section.hpp` is not among the sources; spec section 3 describes the
class as a plain container of Σt, Σa, Σs(g→g'), an optional Σs₁, Σf, νΣf and χ.
The constructor arity used at `nd_library.cpp:190` omits Σs₁, which therefore
stays zero; the one at `nd_library.cpp:252` and `nd_library.cpp:349` provides it. -/
@[ext]
structure CrossSection (K : Type) (G : ℕ) where
  Et : Fin G → K
  Ea : Fin G → K
  Es : Fin G → Fin G → K
  Es1 : Fin G → Fin G → K
  Ef : Fin G → K
  vEf : Fin G → K
  chi : Fin G → K

/-- Tabulated data of one nuclide group in the HDF5 file: datasets
`absorption` [T,D,G], `scatter` and `p1-scatter` [T,D,G,G], `fission` [T,D,G],
`nu` and `chi` [T,G] (spec section 6).  The file is modelled as a read-only
oracle from nuclide names to this record. -/
structure H5NuclideData (K : Type) (G : ℕ) where
  absorption : ℕ → ℕ → Fin G → K
  scatter : ℕ → ℕ → Fin G → Fin G → K
  p1_scatter : ℕ → ℕ → Fin G → Fin G → K
  fission : ℕ → ℕ → Fin G → K
  nu : ℕ → Fin G → K
  chi : ℕ → Fin G → K

/-- `NuclideHandle` (metadata read in the `NDLibrary` constructor,
`nd_library.cpp:90-104`, plus the lazily loaded tensors).  The tensors are
held through `std::shared_ptr` in C++, possibly null, modelled by `Option`. -/
structure NuclideHandle (K : Type) (G : ℕ) where
  name : String
  label : String
  temperatures : List K
  dilutions : List K
  awr : K
  potential_xs : K
  ZA : ℕ
  fissile : Bool
  resonant : Bool
  absorption : Option (ℕ → ℕ → Fin G → K)
  scatter : Option (ℕ → ℕ → Fin G → Fin G → K)
  p1_scatter : Option (ℕ → ℕ → Fin G → Fin G → K)
  fission : Option (ℕ → ℕ → Fin G → K)
  nu : Option (ℕ → Fin G → K)
  chi : Option (ℕ → Fin G → K)

/-- Modelled from the spec: `NuclideHandle::loaded()` is declared in
`data/nd_library.hpp`, which is not among the sources.  Per spec section 5 the
tabulated arrays are lazily loaded on first use; `loaded` reports whether they
are resident, which we take from the absorption pointer (the first array
allocated by `load_xs_from_hdf5` and the first nulled by `unload`). -/
def NuclideHandle.loaded (nuc : NuclideHandle K G) : Bool :=
  nuc.absorption.isSome

/-- `NuclideHandle::load_xs_from_hdf5` (`nd_library.cpp:13-45`): early return
when already loaded, otherwise read the tensors from the file, the fission
data only for fissile nuclides. -/
def NuclideHandle.load_xs_from_hdf5 (nuc : NuclideHandle K G)
    (file : String → H5NuclideData K G) : NuclideHandle K G :=
  if nuc.loaded then nuc
  else
    let d := file nuc.name
    { nuc with
      absorption := some d.absorption
      scatter := some d.scatter
      p1_scatter := some d.p1_scatter
      fission := if nuc.fissile then some d.fission else nuc.fission
      nu := if nuc.fissile then some d.nu else nuc.nu
      chi := if nuc.fissile then some d.chi else nuc.chi }

/-- `NuclideHandle::unload` (`nd_library.cpp:47-54`): null every tensor
pointer, touching nothing else. -/
def NuclideHandle.unload (nuc : NuclideHandle K G) : NuclideHandle K G :=
  { nuc with
    absorption := none
    scatter := none
    p1_scatter := none
    fission := none
    chi := none
    nu := none }

/-- The portion of `NDLibrary` state the claims are about: the name-keyed
collection of nuclide handles (`nuclide_handles_`). -/
structure NDLibrary (K : Type) (G : ℕ) where
  nuclide_handles : List (String × NuclideHandle K G)

/-- `NDLibrary::unload` (`nd_library.cpp:119-123`): unload every handle. -/
def NDLibrary.unload (ndl : NDLibrary K G) : NDLibrary K G :=
  { ndl with
    nuclide_handles := ndl.nuclide_handles.map fun p => (p.1, p.2.unload) }

/-- The bracket-search loop shared by `get_temp_interp_params`
(`nd_library.cpp:364-373`) and `get_dil_interp_params`
(`nd_library.cpp:392-400`): `for (i = 0; i < vals.size()-1; i++)` looks for
`vals[i] <= q <= vals[i+1]`, sets `f` by `fval` and breaks; when no bracket is
found the loop leaves `i = vals.size()-1` and `f` at its caller-initialised
value `0`.  The fuel argument counts the remaining iterations, starting at
`vals.size() - 1`. -/
def bracketSearch (q : K) (vals : List K) (fval : K → K → K) :
    ℕ → ℕ → ℕ × K
  | 0, i => (i, 0)
  | n + 1, i =>
    let vi := vals.getD i 0
    let vi1 := vals.getD (i + 1) 0
    if vi ≤ q ∧ q ≤ vi1 then (i, fval vi vi1)
    else bracketSearch q vals fval n (i + 1)

/-- `NDLibrary::get_temp_interp_params` (`nd_library.cpp:352-378`).  Early
returns clamp to the first point (factor 0) below the grid and to the last
bracket (factor 1) above it; otherwise the bracket search computes
`f = (sqrt(temp) - sqrt(T_i)) / (sqrt(T_{i+1}) - sqrt(T_i))` and the result is
clamped into [0,1]. -/
def get_temp_interp_params (sq : K → K) (temp : K) (temps : List K) : ℕ × K :=
  if temp ≤ temps.headD 0 then (0, 0)
  else if temps.getLastD 0 ≤ temp then (temps.length - 2, 1)
  else
    let r := bracketSearch temp temps
      (fun a b => (sq temp - sq a) / (sq b - sq a)) (temps.length - 1) 0
    (r.1, if r.2 < 0 then 0 else if 1 < r.2 then 1 else r.2)

/-- `NDLibrary::get_dil_interp_params` (`nd_library.cpp:380-405`), the same
scheme with the linear factor `f = (dil - d_i) / (d_{i+1} - d_i)`. -/
def get_dil_interp_params (dil : K) (dils : List K) : ℕ × K :=
  if dil ≤ dils.headD 0 then (0, 0)
  else if dils.getLastD 0 ≤ dil then (dils.length - 2, 1)
  else
    let r := bracketSearch dil dils
      (fun a b => (dil - a) / (b - a)) (dils.length - 1) 0
    (r.1, if r.2 < 0 then 0 else if 1 < r.2 then 1 else r.2)

/-- `NDLibrary::interp_1d` on a [T,G] tensor (`nd_library.cpp:407-416`):
temperature interpolation only. -/
def interp_1d_temp (nE : ℕ → Fin G → K) (it : ℕ) (f_temp : K) : Fin G → K :=
  if 0 < f_temp then
    fun g => (1 - f_temp) * nE it g + f_temp * nE (it + 1) g
  else
    fun g => nE it g

/-- `NDLibrary::interp_1d` on a [T,D,G] tensor (`nd_library.cpp:418-439`):
bilinear temperature/dilution interpolation, degenerating to a single point
or line when a factor is not positive. -/
def interp_1d (nE : ℕ → ℕ → Fin G → K) (it : ℕ) (f_temp : K) (id : ℕ)
    (f_dil : K) : Fin G → K :=
  if 0 < f_temp then
    if 0 < f_dil then
      fun g =>
        (1 - f_temp) * ((1 - f_dil) * nE it id g + f_dil * nE it (id + 1) g) +
        f_temp * ((1 - f_dil) * nE (it + 1) id g + f_dil * nE (it + 1) (id + 1) g)
    else
      fun g => (1 - f_temp) * nE it id g + f_temp * nE (it + 1) id g
  else
    if 0 < f_dil then
      fun g => (1 - f_dil) * nE it id g + f_dil * nE it (id + 1) g
    else
      fun g => nE it id g

/-- `NDLibrary::interp_2d` on a [T,D,G,G] tensor (`nd_library.cpp:441-464`). -/
def interp_2d (nE : ℕ → ℕ → Fin G → Fin G → K) (it : ℕ) (f_temp : K)
    (id : ℕ) (f_dil : K) : Fin G → Fin G → K :=
  if 0 < f_temp then
    if 0 < f_dil then
      fun g gp =>
        (1 - f_temp) *
          ((1 - f_dil) * nE it id g gp + f_dil * nE it (id + 1) g gp) +
        f_temp *
          ((1 - f_dil) * nE (it + 1) id g gp + f_dil * nE (it + 1) (id + 1) g gp)
    else
      fun g gp => (1 - f_temp) * nE it id g gp + f_temp * nE (it + 1) id g gp
  else
    if 0 < f_dil then
      fun g gp => (1 - f_dil) * nE it id g gp + f_dil * nE it (id + 1) g gp
    else
      fun g gp => nE it id g gp

/-- Zero default used when dereferencing an absent tensor (a null
`shared_ptr` dereference never happens on the paths the code takes, since
`interp_xs` loads the handle first; the default value is irrelevant). -/
def zero3 : ℕ → ℕ → Fin G → K := fun _ _ _ => 0

/-- Zero default for [T,D,G,G] tensors. -/
def zero4 : ℕ → ℕ → Fin G → Fin G → K := fun _ _ _ _ => 0

/-- Zero default for [T,G] tensors. -/
def zero2 : ℕ → Fin G → K := fun _ _ => 0

/-- `NDLibrary::interp_xs` (`nd_library.cpp:136-191`).  Computes the
temperature and dilution interpolation parameters, loads the handle if
needed, bilinearly interpolates absorption, scatter and p1 scatter (fission,
nu and chi only when fissile, the latter two without dilution axis), then
reconstructs the total as `Et(g) = Ea(g) + sum_gp Es(g,gp) - Es1(g,g)` and
removes the p1 diagonal from the self-scatter: `Es(g,g) -= Es1(g,g)`.
The `CrossSection` is built without Σs₁ (six-argument constructor).
The C++ method mutates the handle stored in the library when it loads it;
the updated handle is returned alongside the result. -/
def interp_xs (sq : K → K) (file : String → H5NuclideData K G)
    (nuc0 : NuclideHandle K G) (temp dil : K) :
    CrossSection K G × NuclideHandle K G :=
  let tp := get_temp_interp_params sq temp nuc0.temperatures
  let it := tp.1
  let f_temp := tp.2
  let dp := get_dil_interp_params dil nuc0.dilutions
  let id := dp.1
  let f_dil := dp.2
  let nuc := if nuc0.loaded then nuc0 else nuc0.load_xs_from_hdf5 file
  let Ea := interp_1d (nuc.absorption.getD zero3) it f_temp id f_dil
  let Es := interp_2d (nuc.scatter.getD zero4) it f_temp id f_dil
  let Es1 := interp_2d (nuc.p1_scatter.getD zero4) it f_temp id f_dil
  let Ef : Fin G → K :=
    if nuc.fissile then interp_1d (nuc.fission.getD zero3) it f_temp id f_dil
    else fun _ => 0
  let nuv : Fin G → K :=
    if nuc.fissile then interp_1d_temp (nuc.nu.getD zero2) it f_temp
    else fun _ => 0
  let chi : Fin G → K :=
    if nuc.fissile then interp_1d_temp (nuc.chi.getD zero2) it f_temp
    else fun _ => 0
  let Et : Fin G → K := fun g => Ea g + (∑ gp, Es g gp) - Es1 g g
  let EsCorr : Fin G → Fin G → K :=
    fun g gp => if gp = g then Es g gp - Es1 g g else Es g gp
  (⟨Et, Ea, EsCorr, fun _ _ => 0, Ef, fun g => nuv g * Ef g, chi⟩, nuc)

/-- `NDLibrary::two_term_xs` (`nd_library.cpp:193-253`).  Interpolates the two
cross-section sets at the background dilutions, forms the per-group
narrow-resonance fluxes and weighting factors, averages Σa, Σf, Σs, Σs₁ and
νΣf with them, rebuilds `Et(g) = Ea(g) + sum Es(g,:)`, and averages χ with
weights given by the two summed νΣf contributions, renormalising it to unit
sum when positive.  `pot_xs` is read from the handle after the interpolation
calls (`get_nuclide(name).potential_xs`, `nd_library.cpp:203`). -/
def two_term_xs (sq : K → K) (file : String → H5NuclideData K G)
    (nuc0 : NuclideHandle K G) (temp b1 b2 bg_xs_1 bg_xs_2 : K) :
    CrossSection K G × NuclideHandle K G :=
  let r1 := interp_xs sq file nuc0 temp bg_xs_1
  let xs_1 := r1.1
  let r2 := interp_xs sq file r1.2 temp bg_xs_2
  let xs_2 := r2.1
  let nuc := r2.2
  let pot_xs := nuc.potential_xs
  let flux_1 : Fin G → K := fun g => (pot_xs + bg_xs_1) / (xs_1.Ea g + pot_xs + bg_xs_1)
  let flux_2 : Fin G → K := fun g => (pot_xs + bg_xs_2) / (xs_2.Ea g + pot_xs + bg_xs_2)
  let f1 : Fin G → K := fun g => b1 * flux_1 g / (b1 * flux_1 g + b2 * flux_2 g)
  let f2 : Fin G → K := fun g => b2 * flux_2 g / (b1 * flux_1 g + b2 * flux_2 g)
  let Ea : Fin G → K := fun g => f1 g * xs_1.Ea g + f2 g * xs_2.Ea g
  let Ef : Fin G → K := fun g => f1 g * xs_1.Ef g + f2 g * xs_2.Ef g
  let Es : Fin G → Fin G → K :=
    fun g gout => f1 g * xs_1.Es g gout + f2 g * xs_2.Es g gout
  let Es1 : Fin G → Fin G → K :=
    fun g gout => f1 g * xs_1.Es1 g gout + f2 g * xs_2.Es1 g gout
  let Et : Fin G → K := fun g => Ea g + ∑ gout, Es g gout
  let vEf : Fin G → K := fun g => f1 g * xs_1.vEf g + f2 g * xs_2.vEf g
  let vEf_sum_1 := ∑ g, f1 g * xs_1.vEf g
  let vEf_sum_2 := ∑ g, f2 g * xs_2.vEf g
  let chi : Fin G → K :=
    if 0 < vEf_sum_1 + vEf_sum_2 then
      let c : Fin G → K := fun g =>
        (vEf_sum_1 * xs_1.chi g + vEf_sum_2 * xs_2.chi g) /
          (vEf_sum_1 + vEf_sum_2)
      let chi_sum := ∑ g, c g
      if 0 < chi_sum then fun g => c g / chi_sum else c
    else fun _ => 0
  (⟨Et, Ea, Es, Es1, Ef, vEf, chi⟩, nuc)

/-- The lump geometry computation of `NDLibrary::eta_lm`
(`nd_library.cpp:473-495`), after the validity check on `m` has passed. -/
def eta_lm_core (sq asn : K → K) (pi : K) (m : ℕ) (Rfuel Rin Rout : K) :
    K × K :=
  let p_i := min (Rout / Rfuel) 1
  let p_im := Rin / Rfuel
  let p := if m = 3 ∨ m = 4 then p_im else p_i
  let theta0 := (1 / 2 : K) * pi * p
  let theta := if m = 2 ∨ m = 4 then -theta0 else theta0
  let l := 2 * (Rout * Rout - Rin * Rin) / Rfuel
  let T1 := sq (1 - p * p)
  let T2 := if 0 < Rin then asn p / p else 1
  let lm := (2 * Rfuel / pi) * (T1 + T2 + theta)
  let eta0 := p * lm / l
  let eta := if m = 2 ∨ m = 3 then -eta0 else eta0
  (eta, lm)

/-- `NDLibrary::eta_lm` (`nd_library.cpp:466-496`): throws
`ScarabeeException` for `m = 0` or `m > 4`, otherwise computes the
(η_m, ℓ_m) pair. -/
def eta_lm (sq asn : K → K) (pi : K) (m : ℕ) (Rfuel Rin Rout : K) :
    Except String (K × K) :=
  if m = 0 ∨ 4 < m then Except.error "Invalid m."
  else Except.ok (eta_lm_core sq asn pi m Rfuel Rin Rout)

/-- Accumulator threaded through the lump loop of `ring_two_term_xs`
(`nd_library.cpp:286-332`): the handle state plus the running sums. -/
structure RingAcc (K : Type) (G : ℕ) where
  nuc : NuclideHandle K G
  Ea : Fin G → K
  Ef : Fin G → K
  vEf : Fin G → K
  chi : Fin G → K
  denoms : Fin G → K
  Es : Fin G → Fin G → K
  Es1 : Fin G → Fin G → K

/-- One iteration (lump `m`) of the loop in `ring_two_term_xs`
(`nd_library.cpp:286-332`): compute (η_m, ℓ_m), the two per-lump background
cross sections (`1e10` when ℓ_m = 0), interpolate the two sets, and add the
η_m-weighted `b1`/`b2` combinations to every accumulator; χ is overwritten
from the first set when `m = 1`. -/
def ring_step (sq asn : K → K) (pi : K) (file : String → H5NuclideData K G)
    (pot_xs temp a1 a2 b1 b2 mat_pot_xs N Rfuel Rin Rout : K)
    (acc : RingAcc K G) (m : ℕ) : RingAcc K G :=
  let el := eta_lm_core sq asn pi m Rfuel Rin Rout
  let eta_m := el.1
  let l_m := el.2
  let macro_pot_xs := N * pot_xs
  let bg_xs_1 :=
    if 0 < l_m then (mat_pot_xs - macro_pot_xs + a1 / l_m) / N else 10 ^ 10
  let bg_xs_2 :=
    if 0 < l_m then (mat_pot_xs - macro_pot_xs + a2 / l_m) / N else 10 ^ 10
  let r1 := interp_xs sq file acc.nuc temp bg_xs_1
  let xs_1 := r1.1
  let r2 := interp_xs sq file r1.2 temp bg_xs_2
  let xs_2 := r2.1
  let flux_1 : Fin G → K :=
    fun g => (pot_xs + bg_xs_1) / (xs_1.Ea g + pot_xs + bg_xs_1)
  let flux_2 : Fin G → K :=
    fun g => (pot_xs + bg_xs_2) / (xs_2.Ea g + pot_xs + bg_xs_2)
  { nuc := r2.2
    Ea := fun g => acc.Ea g + eta_m * (b1 * xs_1.Ea g + b2 * xs_2.Ea g)
    Ef := fun g => acc.Ef g + eta_m * (b1 * xs_1.Ef g + b2 * xs_2.Ef g)
    vEf := fun g => acc.vEf g + eta_m * (b1 * xs_1.vEf g + b2 * xs_2.vEf g)
    chi := if m = 1 then fun g => xs_1.chi g else acc.chi
    denoms := fun g => acc.denoms g + eta_m * (b1 * flux_1 g + b2 * flux_2 g)
    Es := fun g gout =>
      acc.Es g gout + eta_m * (b1 * xs_1.Es g gout + b2 * xs_2.Es g gout)
    Es1 := fun g gout =>
      acc.Es1 g gout + eta_m * (b1 * xs_1.Es1 g gout + b2 * xs_2.Es1 g gout) }

/-- The computation performed by `NDLibrary::ring_two_term_xs` once its two
radius checks have passed (`nd_library.cpp:271-349`): run the four-lump loop
and normalise each group by the accumulated flux denominator, rebuilding
`Et(g) = Ea(g) + sum Es(g,:)` from the normalised values. -/
def ring_two_term_core (sq asn : K → K) (pi : K)
    (file : String → H5NuclideData K G) (nuc0 : NuclideHandle K G)
    (temp a1 a2 b1 b2 mat_pot_xs N Rfuel Rin Rout : K) :
    CrossSection K G × NuclideHandle K G :=
  let acc0 : RingAcc K G :=
    { nuc := nuc0
      Ea := fun _ => 0
      Ef := fun _ => 0
      vEf := fun _ => 0
      chi := fun _ => 0
      denoms := fun _ => 0
      Es := fun _ _ => 0
      Es1 := fun _ _ => 0 }
  let acc := [1, 2, 3, 4].foldl
    (ring_step sq asn pi file nuc0.potential_xs temp a1 a2 b1 b2 mat_pot_xs N
      Rfuel Rin Rout)
    acc0
  let Ea : Fin G → K := fun g => acc.Ea g * (1 / acc.denoms g)
  let Ef : Fin G → K := fun g => acc.Ef g * (1 / acc.denoms g)
  let vEf : Fin G → K := fun g => acc.vEf g * (1 / acc.denoms g)
  let Es : Fin G → Fin G → K := fun g gout => acc.Es g gout * (1 / acc.denoms g)
  let Es1 : Fin G → Fin G → K :=
    fun g gout => acc.Es1 g gout * (1 / acc.denoms g)
  let Et : Fin G → K := fun g => Ea g + ∑ gout, Es g gout
  (⟨Et, Ea, Es, Es1, Ef, vEf, acc.chi⟩, acc.nuc)

/-- `NDLibrary::ring_two_term_xs` (`nd_library.cpp:255-350`): the two radius
validations throw `ScarabeeException` before anything is interpolated or
accumulated (so no partial result exists on failure); `Rout = Rfuel` passes
the checks. -/
def ring_two_term_xs (sq asn : K → K) (pi : K)
    (file : String → H5NuclideData K G) (nuc0 : NuclideHandle K G)
    (temp a1 a2 b1 b2 mat_pot_xs N Rfuel Rin Rout : K) :
    Except String (CrossSection K G × NuclideHandle K G) :=
  if Rout ≤ Rin then Except.error "Rin must be < Rout."
  else if Rfuel < Rout then Except.error "Rout must be < Rfuel."
  else Except.ok (ring_two_term_core sq asn pi file nuc0 temp a1 a2 b1 b2
    mat_pot_xs N Rfuel Rin Rout)

/-- The value `interp_xs` computes once the handle is resident: the same body
as `interp_xs` reading the metadata and tensors of an already-loaded handle.
`interp_xs_eq` below proves that `interp_xs` returns exactly this value on the
handle after loading. -/
def interp_xs_pure (sq : K → K) (nuc : NuclideHandle K G) (temp dil : K) :
    CrossSection K G :=
  let tp := get_temp_interp_params sq temp nuc.temperatures
  let it := tp.1
  let f_temp := tp.2
  let dp := get_dil_interp_params dil nuc.dilutions
  let id := dp.1
  let f_dil := dp.2
  let Ea := interp_1d (nuc.absorption.getD zero3) it f_temp id f_dil
  let Es := interp_2d (nuc.scatter.getD zero4) it f_temp id f_dil
  let Es1 := interp_2d (nuc.p1_scatter.getD zero4) it f_temp id f_dil
  let Ef : Fin G → K :=
    if nuc.fissile then interp_1d (nuc.fission.getD zero3) it f_temp id f_dil
    else fun _ => 0
  let nuv : Fin G → K :=
    if nuc.fissile then interp_1d_temp (nuc.nu.getD zero2) it f_temp
    else fun _ => 0
  let chi : Fin G → K :=
    if nuc.fissile then interp_1d_temp (nuc.chi.getD zero2) it f_temp
    else fun _ => 0
  let Et : Fin G → K := fun g => Ea g + (∑ gp, Es g gp) - Es1 g g
  let EsCorr : Fin G → Fin G → K :=
    fun g gp => if gp = g then Es g gp - Es1 g g else Es g gp
  ⟨Et, Ea, EsCorr, fun _ _ => 0, Ef, fun g => nuv g * Ef g, chi⟩

section Helpers

variable (file : String → H5NuclideData K G) (nuc : NuclideHandle K G)

lemma load_name : (nuc.load_xs_from_hdf5 file).name = nuc.name := by
  rw [NuclideHandle.load_xs_from_hdf5]; split <;> rfl

lemma load_label : (nuc.load_xs_from_hdf5 file).label = nuc.label := by
  rw [NuclideHandle.load_xs_from_hdf5]; split <;> rfl

lemma load_temperatures :
    (nuc.load_xs_from_hdf5 file).temperatures = nuc.temperatures := by
  rw [NuclideHandle.load_xs_from_hdf5]; split <;> rfl

lemma load_dilutions :
    (nuc.load_xs_from_hdf5 file).dilutions = nuc.dilutions := by
  rw [NuclideHandle.load_xs_from_hdf5]; split <;> rfl

lemma load_awr : (nuc.load_xs_from_hdf5 file).awr = nuc.awr := by
  rw [NuclideHandle.load_xs_from_hdf5]; split <;> rfl

lemma load_potential_xs :
    (nuc.load_xs_from_hdf5 file).potential_xs = nuc.potential_xs := by
  rw [NuclideHandle.load_xs_from_hdf5]; split <;> rfl

lemma load_ZA : (nuc.load_xs_from_hdf5 file).ZA = nuc.ZA := by
  rw [NuclideHandle.load_xs_from_hdf5]; split <;> rfl

lemma load_fissile : (nuc.load_xs_from_hdf5 file).fissile = nuc.fissile := by
  rw [NuclideHandle.load_xs_from_hdf5]; split <;> rfl

lemma load_resonant :
    (nuc.load_xs_from_hdf5 file).resonant = nuc.resonant := by
  rw [NuclideHandle.load_xs_from_hdf5]; split <;> rfl

lemma loaded_load : (nuc.load_xs_from_hdf5 file).loaded = true := by
  rw [NuclideHandle.load_xs_from_hdf5]
  split
  · assumption
  · rfl

lemma load_of_loaded (h : nuc.loaded = true) :
    nuc.load_xs_from_hdf5 file = nuc := by
  rw [NuclideHandle.load_xs_from_hdf5, if_pos h]

lemma load_load :
    (nuc.load_xs_from_hdf5 file).load_xs_from_hdf5 file =
      nuc.load_xs_from_hdf5 file :=
  load_of_loaded _ _ (loaded_load file nuc)

lemma loadIf_eq :
    (if nuc.loaded then nuc else nuc.load_xs_from_hdf5 file) =
      nuc.load_xs_from_hdf5 file := by
  by_cases h : nuc.loaded = true
  · rw [if_pos h, load_of_loaded _ _ h]
  · rw [if_neg h]

/-- `interp_xs` computes `interp_xs_pure` on the loaded handle and returns
the loaded handle as the updated library state. -/
lemma interp_xs_eq (sq : K → K) (temp dil : K) :
    interp_xs sq file nuc temp dil =
      (interp_xs_pure sq (nuc.load_xs_from_hdf5 file) temp dil,
        nuc.load_xs_from_hdf5 file) := by
  rw [interp_xs, interp_xs_pure, loadIf_eq, load_temperatures, load_dilutions]

/-- Interpolating from an already-loaded handle state gives the same cross
section: the second call of `two_term_xs` and the later lump iterations of
`ring_two_term_xs` see the library state left by the first call. -/
lemma interp_xs_load_stable (sq : K → K) (temp dil : K) :
    interp_xs sq file (nuc.load_xs_from_hdf5 file) temp dil =
      (interp_xs_pure sq (nuc.load_xs_from_hdf5 file) temp dil,
        nuc.load_xs_from_hdf5 file) := by
  rw [interp_xs_eq, load_load]

lemma sum_ite_diag (f h : Fin G → K) (g : Fin G) :
    (∑ gp, if gp = g then f gp - h g else f gp) = (∑ gp, f gp) - h g := by
  have : ∀ gp : Fin G, (if gp = g then f gp - h g else f gp) =
      f gp - (if gp = g then h g else 0) := by
    intro gp
    by_cases hgp : gp = g
    · simp [hgp]
    · simp [hgp]
  rw [Finset.sum_congr rfl fun gp _ => this gp, Finset.sum_sub_distrib,
    Finset.sum_ite_eq' Finset.univ g fun _ => h g]
  simp

end Helpers

/-- `YamamotoTabuchi<2>::abscissae_` (`yamamoto_tabuchi.cpp:10`). -/
def yt2_abscissae : List ℚ := [0.798184]

/-- `YamamotoTabuchi<2>::weights_` (`yamamoto_tabuchi.cpp:12`). -/
def yt2_weights : List ℚ := [1.000000]

/-- `YamamotoTabuchi<4>::abscissae_` (`yamamoto_tabuchi.cpp:16`). -/
def yt4_abscissae : List ℚ := [0.363900, 0.899900]

/-- `YamamotoTabuchi<4>::weights_` (`yamamoto_tabuchi.cpp:19`). -/
def yt4_weights : List ℚ := [0.212854, 0.787146]

/-- `YamamotoTabuchi<6>::abscissae_` (`yamamoto_tabuchi.cpp:23`). -/
def yt6_abscissae : List ℚ := [0.166648, 0.537707, 0.932954]

/-- `YamamotoTabuchi<6>::weights_` (`yamamoto_tabuchi.cpp:26`). -/
def yt6_weights : List ℚ := [0.046233, 0.283619, 0.670148]

section MoreHelpers

variable (sq asn : K → K) (pi : K) (file : String → H5NuclideData K G)
variable (nuc0 : NuclideHandle K G)

lemma interp_xs_fst (temp dil : K) :
    (interp_xs sq file nuc0 temp dil).1 =
      interp_xs_pure sq (nuc0.load_xs_from_hdf5 file) temp dil := by
  rw [interp_xs_eq]

lemma interp_xs_Es1 (temp dil : K) :
    ((interp_xs sq file nuc0 temp dil).1).Es1 = fun _ _ => (0 : K) := by
  rw [interp_xs_fst]; rfl

lemma ring_step_Es1 (pot temp a1 a2 b1 b2 mat N Rfuel Rin Rout : K)
    (acc : RingAcc K G) (m : ℕ) :
    (ring_step sq asn pi file pot temp a1 a2 b1 b2 mat N Rfuel Rin Rout
        acc m).Es1 = acc.Es1 := by
  funext g gout
  show acc.Es1 g gout + _ * (b1 * ((interp_xs sq file acc.nuc temp _).1).Es1 g gout +
    b2 * ((interp_xs sq file ((interp_xs sq file acc.nuc temp _).2) temp _).1).Es1 g gout) =
      acc.Es1 g gout
  rw [interp_xs_Es1, interp_xs_Es1]
  ring

lemma ring_foldl_Es1 (pot temp a1 a2 b1 b2 mat N Rfuel Rin Rout : K)
    (acc0 : RingAcc K G) :
    (List.foldl
        (ring_step sq asn pi file pot temp a1 a2 b1 b2 mat N Rfuel Rin Rout)
        acc0 [1, 2, 3, 4]).Es1 = acc0.Es1 := by
  rw [List.foldl_cons, List.foldl_cons, List.foldl_cons, List.foldl_cons,
    List.foldl_nil, ring_step_Es1, ring_step_Es1, ring_step_Es1, ring_step_Es1]

lemma ring_core_Es1 (temp a1 a2 b1 b2 mat N Rfuel Rin Rout : K)
    (g gout : Fin G) :
    ((ring_two_term_core sq asn pi file nuc0 temp a1 a2 b1 b2 mat N Rfuel Rin
        Rout).1).Es1 g gout = 0 := by
  simp only [ring_two_term_core, ring_foldl_Es1]
  rw [zero_mul]

end MoreHelpers

/-- C8: for each Yamamoto-Tabuchi polar quadrature N in {2, 4, 6} the
abscissae and weights arrays have equal length N/2, and the tabulated
weights, read as exact rationals, sum exactly to 1. -/
theorem yt_quadrature_weights :
    (yt2_abscissae.length = 1 ∧ yt2_weights.length = 1 ∧
      yt4_abscissae.length = 2 ∧ yt4_weights.length = 2 ∧
      yt6_abscissae.length = 3 ∧ yt6_weights.length = 3) ∧
    yt2_weights.sum = 1 ∧ yt4_weights.sum = 1 ∧ yt6_weights.sum = 1 := by
  norm_num [yt2_abscissae, yt2_weights, yt4_abscissae, yt4_weights,
    yt6_abscissae, yt6_weights]

/-- C1: every cross section produced by the NDLibrary self-shielding paths
satisfies the p1-corrected total invariant.  For `interp_xs`, with `EsRaw` and
`Es1Raw` the bilinearly interpolated scatter and p1-scatter matrices,
`Σt(g) = Σa(g) + Σ_gp EsRaw(g,gp) - Es1Raw(g,g)` and the stored self-scatter
is reduced, `Σs(g,g) = EsRaw(g,g) - Es1Raw(g,g)`; consequently the stored
matrices of the result of each path (`interp_xs`, `two_term_xs`, and the
computation `ring_two_term_xs` wraps in `Except.ok`, here `ring_two_term_core`)
satisfy `Σt(g) = Σa(g) + Σ_gp Σs(g,gp) - Σs₁(g,g)`. -/
theorem p1_total_invariant (sq asn : ℚ → ℚ) (pi : ℚ)
    (file : String → H5NuclideData ℚ G) (nuc0 : NuclideHandle ℚ G)
    (temp dil b1 b2 bg1 bg2 a1 a2 mat N Rfuel Rin Rout : ℚ) (g : Fin G) :
    (let nuc := nuc0.load_xs_from_hdf5 file
     let tp := get_temp_interp_params sq temp nuc0.temperatures
     let dp := get_dil_interp_params dil nuc0.dilutions
     let EsRaw := interp_2d (nuc.scatter.getD zero4) tp.1 tp.2 dp.1 dp.2
     let Es1Raw := interp_2d (nuc.p1_scatter.getD zero4) tp.1 tp.2 dp.1 dp.2
     let xs := (interp_xs sq file nuc0 temp dil).1
     xs.Et g = xs.Ea g + (∑ gp, EsRaw g gp) - Es1Raw g g ∧
     xs.Es g g = EsRaw g g - Es1Raw g g ∧
     xs.Et g = xs.Ea g + (∑ gp, xs.Es g gp) - xs.Es1 g g) ∧
    (let xs := (two_term_xs sq file nuc0 temp b1 b2 bg1 bg2).1
     xs.Et g = xs.Ea g + (∑ gp, xs.Es g gp) - xs.Es1 g g) ∧
    (let xs := (ring_two_term_core sq asn pi file nuc0 temp a1 a2 b1 b2 mat N
        Rfuel Rin Rout).1
     xs.Et g = xs.Ea g + (∑ gp, xs.Es g gp) - xs.Es1 g g) := by
  refine ⟨?_, ?_, ?_⟩
  · rw [interp_xs_fst]
    simp only [interp_xs_pure, load_temperatures, load_dilutions]
    refine ⟨trivial, by simp, ?_⟩
    rw [sum_ite_diag]
    ring
  · simp only [two_term_xs, interp_xs_Es1]
    ring
  · simp only [ring_two_term_core, ring_foldl_Es1]
    ring

/-- C5: `ring_two_term_xs` raises `ScarabeeException` exactly when
`Rin >= Rout` (checked first) or `Rout > Rfuel`; since the checks precede the
lump loop, an error means nothing was interpolated or accumulated and no
partial result exists (the `Except.error` value carries no cross section).
`Rout = Rfuel` is accepted, and on acceptance the result is `Except.ok` of
the full computation.  `eta_lm` raises exactly for `m = 0` or `m > 4`. -/
theorem ring_and_eta_validation (sq asn : ℚ → ℚ) (pi : ℚ)
    (file : String → H5NuclideData ℚ G) (nuc0 : NuclideHandle ℚ G)
    (temp a1 a2 b1 b2 mat N Rfuel Rin Rout : ℚ) :
    (Rout ≤ Rin →
      ring_two_term_xs sq asn pi file nuc0 temp a1 a2 b1 b2 mat N Rfuel Rin
        Rout = Except.error "Rin must be < Rout.") ∧
    (Rin < Rout → Rfuel < Rout →
      ring_two_term_xs sq asn pi file nuc0 temp a1 a2 b1 b2 mat N Rfuel Rin
        Rout = Except.error "Rout must be < Rfuel.") ∧
    (Rin < Rout → Rout ≤ Rfuel →
      ring_two_term_xs sq asn pi file nuc0 temp a1 a2 b1 b2 mat N Rfuel Rin
        Rout =
        Except.ok (ring_two_term_core sq asn pi file nuc0 temp a1 a2 b1 b2 mat
          N Rfuel Rin Rout)) ∧
    (Rin < Rfuel →
      (ring_two_term_xs sq asn pi file nuc0 temp a1 a2 b1 b2 mat N Rfuel Rin
        Rfuel).isOk = true) ∧
    (∀ m : ℕ,
      (m = 0 ∨ 4 < m) ↔
        eta_lm sq asn pi m Rfuel Rin Rout = Except.error "Invalid m.") := by
  refine ⟨?_, ?_, ?_, ?_, ?_⟩
  · intro h
    rw [ring_two_term_xs, if_pos h]
  · intro h1 h2
    rw [ring_two_term_xs, if_neg (not_le.mpr h1), if_pos h2]
  · intro h1 h2
    rw [ring_two_term_xs, if_neg (not_le.mpr h1), if_neg (not_lt.mpr h2)]
  · intro h1
    rw [ring_two_term_xs, if_neg (not_le.mpr h1), if_neg (lt_irrefl Rfuel)]
    rfl
  · intro m
    constructor
    · intro h
      rw [eta_lm, if_pos h]
    · intro h
      by_cases hm : m = 0 ∨ 4 < m
      · exact hm
      · rw [eta_lm, if_neg hm] at h
        exact absurd h (by simp)

/-- C7: the tabulated arrays are lazily managed.  `load_xs_from_hdf5` is a
no-op on a loaded handle; `interp_xs` returns the handle passed through
`load_xs_from_hdf5` (so the arrays are loaded on first use and the resulting
library state is loaded); `NuclideHandle::unload` nulls the six array
pointers while leaving all the metadata (name, label, temperatures,
dilutions, awr, potential_xs, ZA, fissile, resonant) unchanged; and
`NDLibrary::unload` applies exactly this to every handle of the library. -/
theorem lazy_load_unload_frame (sq : ℚ → ℚ)
    (file : String → H5NuclideData ℚ G) (nuc0 n : NuclideHandle ℚ G)
    (ndl : NDLibrary ℚ G) (temp dil : ℚ) (h : nuc0.loaded = true) :
    (nuc0.load_xs_from_hdf5 file = nuc0) ∧
    ((interp_xs sq file n temp dil).2 = n.load_xs_from_hdf5 file ∧
      ((interp_xs sq file n temp dil).2).loaded = true) ∧
    (n.unload.absorption = none ∧ n.unload.scatter = none ∧
      n.unload.p1_scatter = none ∧ n.unload.fission = none ∧
      n.unload.nu = none ∧ n.unload.chi = none ∧
      n.unload.name = n.name ∧ n.unload.label = n.label ∧
      n.unload.temperatures = n.temperatures ∧
      n.unload.dilutions = n.dilutions ∧ n.unload.awr = n.awr ∧
      n.unload.potential_xs = n.potential_xs ∧ n.unload.ZA = n.ZA ∧
      n.unload.fissile = n.fissile ∧ n.unload.resonant = n.resonant) ∧
    (ndl.unload.nuclide_handles =
      ndl.nuclide_handles.map fun p => (p.1, p.2.unload)) := by
  refine ⟨load_of_loaded file nuc0 h, ⟨?_, ?_⟩, ?_, rfl⟩
  · rw [interp_xs_eq]
  · rw [interp_xs_eq]
    exact loaded_load file n
  · simp [NuclideHandle.unload]

lemma bracketSearch_spec (q : K) (vals : List K) (fval : K → K → K) :
    ∀ (fuel i0 : ℕ),
      (bracketSearch q vals fval fuel i0).1 < i0 + fuel ∨
      ((bracketSearch q vals fval fuel i0).1 = i0 + fuel ∧
        (bracketSearch q vals fval fuel i0).2 = 0) := by
  intro fuel
  induction fuel with
  | zero => intro i0; right; exact ⟨rfl, rfl⟩
  | succ n ih =>
    intro i0
    rw [bracketSearch]
    split
    · left; omega
    · rcases ih (i0 + 1) with h | h
      · left; omega
      · right; exact ⟨by omega, h.2⟩

lemma clamp01_mem (f : K) :
    0 ≤ (if f < 0 then (0 : K) else if 1 < f then 1 else f) ∧
    (if f < 0 then (0 : K) else if 1 < f then 1 else f) ≤ 1 := by
  split
  · exact ⟨le_refl 0, zero_le_one⟩
  · split
    · exact ⟨zero_le_one, le_refl 1⟩
    · constructor <;> [exact not_lt.mp (by assumption); exact not_lt.mp (by assumption)]

lemma interp_params_cases (q : K) (vals : List K) (fval : K → K → K)
    (h2 : 2 ≤ vals.length) :
    let r :=
      if q ≤ vals.headD 0 then ((0 : ℕ), (0 : K))
      else if vals.getLastD 0 ≤ q then (vals.length - 2, 1)
      else
        let s := bracketSearch q vals fval (vals.length - 1) 0
        (s.1, if s.2 < 0 then 0 else if 1 < s.2 then 1 else s.2)
    r.1 < vals.length ∧ 0 ≤ r.2 ∧ r.2 ≤ 1 ∧
      (0 < r.2 → r.1 + 1 < vals.length) := by
  intro r
  by_cases hfront : q ≤ vals.headD 0
  · simp only [r, if_pos hfront]
    refine ⟨by omega, le_refl 0, zero_le_one, fun h => absurd h (lt_irrefl 0)⟩
  · by_cases hback : vals.getLastD 0 ≤ q
    · simp only [r, if_neg hfront, if_pos hback]
      exact ⟨by omega, zero_le_one, le_refl 1, fun _ => by omega⟩
    · simp only [r, if_neg hfront, if_neg hback]
      rcases bracketSearch_spec q vals fval (vals.length - 1) 0 with h | h
      · exact ⟨by omega, (clamp01_mem _).1, (clamp01_mem _).2, fun _ => by omega⟩
      · refine ⟨by omega, (clamp01_mem _).1, (clamp01_mem _).2, fun hf => ?_⟩
        rw [h.2] at hf
        simp only [lt_irrefl, if_neg (lt_irrefl (0 : K))] at hf
        norm_num at hf

/-- C9: for lists of at least two tabulated points, the temperature and
dilution interpolation parameter searches return a factor clamped into
[0, 1] together with an index `i < length`, and whenever the factor is
positive the bracket is interior, `i + 1 < length`; hence the reads
`nE(it, ...)`, `nE(it+1, ...)` performed by `interp_1d` / `interp_2d` inside
`interp_xs` (taken at `it+1` only when `f_temp > 0`, and likewise for the
dilution axis) stay inside the tabulated array bounds. -/
theorem interp_params_bounds (sq : ℚ → ℚ) (q d : ℚ) (temps dils : List ℚ)
    (ht : 2 ≤ temps.length) (hd : 2 ≤ dils.length) :
    ((get_temp_interp_params sq q temps).1 < temps.length ∧
      0 ≤ (get_temp_interp_params sq q temps).2 ∧
      (get_temp_interp_params sq q temps).2 ≤ 1 ∧
      (0 < (get_temp_interp_params sq q temps).2 →
        (get_temp_interp_params sq q temps).1 + 1 < temps.length)) ∧
    ((get_dil_interp_params d dils).1 < dils.length ∧
      0 ≤ (get_dil_interp_params d dils).2 ∧
      (get_dil_interp_params d dils).2 ≤ 1 ∧
      (0 < (get_dil_interp_params d dils).2 →
        (get_dil_interp_params d dils).1 + 1 < dils.length)) := by
  constructor
  · have := interp_params_cases q temps
      (fun a b => (sq q - sq a) / (sq b - sq a)) ht
    simpa [get_temp_interp_params] using this
  · have := interp_params_cases d dils (fun a b => (d - a) / (b - a)) hd
    simpa [get_dil_interp_params] using this

/-- C10: for a non-fissile nuclide (fissile flag false) `interp_xs` returns a
cross section whose Σf, νΣf and χ vanish in every group, at every
temperature and dilution. -/
theorem nonfissile_zero_fission (sq : ℚ → ℚ)
    (file : String → H5NuclideData ℚ G) (nuc0 : NuclideHandle ℚ G)
    (temp dil : ℚ) (h : nuc0.fissile = false) (g : Fin G) :
    ((interp_xs sq file nuc0 temp dil).1).Ef g = 0 ∧
    ((interp_xs sq file nuc0 temp dil).1).vEf g = 0 ∧
    ((interp_xs sq file nuc0 temp dil).1).chi g = 0 := by
  rw [interp_xs_fst]
  have hf : (nuc0.load_xs_from_hdf5 file).fissile = false := by
    rw [load_fissile]; exact h
  simp [interp_xs_pure, hf]

/-- Concrete one-group file contents used to instantiate the theorems. -/
def wH5 : H5NuclideData ℚ 1 :=
  ⟨fun _ _ _ => 1, fun _ _ _ _ => 2, fun _ _ _ _ => 1 / 4, fun _ _ _ => 1,
    fun _ _ => 2, fun _ _ => 1⟩

/-- Concrete nuclear data file oracle. -/
def wFile : String → H5NuclideData ℚ 1 := fun _ => wH5

/-- Concrete fissile, not yet loaded, nuclide handle. -/
def wNucF : NuclideHandle ℚ 1 :=
  { name := "U235", label := "U235", temperatures := [300, 600],
    dilutions := [1, 100], awr := 233, potential_xs := 1, ZA := 92235,
    fissile := true, resonant := true, absorption := none, scatter := none,
    p1_scatter := none, fission := none, nu := none, chi := none }

/-- Concrete non-fissile handle. -/
def wNucNF : NuclideHandle ℚ 1 := { wNucF with fissile := false }

/-- Concrete loaded handle. -/
def wNucL : NuclideHandle ℚ 1 := wNucF.load_xs_from_hdf5 wFile

/-- Concrete one-nuclide library. -/
def wNDL : NDLibrary ℚ 1 := ⟨[("U235", wNucF)]⟩

/-- Witness for C5 at concrete radii: both rejections fire, `(Rin, Rout,
Rfuel) = (1, 2, 2)` with `Rout = Rfuel` is accepted, and `eta_lm` rejects
`m = 5`. -/
theorem ring_and_eta_validation_witness :
    ring_two_term_xs (fun q : ℚ => q) (fun q => q) 3 wFile wNucF 400 1 1
        (1 / 2) (1 / 2) 1 1 2 2 1 = Except.error "Rin must be < Rout." ∧
    ring_two_term_xs (fun q : ℚ => q) (fun q => q) 3 wFile wNucF 400 1 1
        (1 / 2) (1 / 2) 1 1 2 1 3 = Except.error "Rout must be < Rfuel." ∧
    ring_two_term_xs (fun q : ℚ => q) (fun q => q) 3 wFile wNucF 400 1 1
        (1 / 2) (1 / 2) 1 1 2 1 2 =
      Except.ok (ring_two_term_core (fun q : ℚ => q) (fun q => q) 3 wFile
        wNucF 400 1 1 (1 / 2) (1 / 2) 1 1 2 1 2) ∧
    (ring_two_term_xs (fun q : ℚ => q) (fun q => q) 3 wFile wNucF 400 1 1
        (1 / 2) (1 / 2) 1 1 2 1 2).isOk = true ∧
    eta_lm (fun q : ℚ => q) (fun q => q) 3 5 2 1 2 =
      Except.error "Invalid m." :=
  ⟨(ring_and_eta_validation (fun q : ℚ => q) (fun q => q) 3 wFile wNucF 400 1
      1 (1 / 2) (1 / 2) 1 1 2 2 1).1 (by norm_num),
    (ring_and_eta_validation (fun q : ℚ => q) (fun q => q) 3 wFile wNucF 400 1
      1 (1 / 2) (1 / 2) 1 1 2 1 3).2.1 (by norm_num) (by norm_num),
    (ring_and_eta_validation (fun q : ℚ => q) (fun q => q) 3 wFile wNucF 400 1
      1 (1 / 2) (1 / 2) 1 1 2 1 2).2.2.1 (by norm_num) (by norm_num),
    (ring_and_eta_validation (fun q : ℚ => q) (fun q => q) 3 wFile wNucF 400 1
      1 (1 / 2) (1 / 2) 1 1 2 1 2).2.2.2.1 (by norm_num),
    ((ring_and_eta_validation (fun q : ℚ => q) (fun q => q) 3 wFile wNucF 400
      1 1 (1 / 2) (1 / 2) 1 1 2 1 2).2.2.2.2 5).mp (by norm_num)⟩

/-- Witness for C7 on the concrete handles: the loaded handle is a fixed
point of loading, `interp_xs` loads the fresh handle, and unloading clears
the arrays of the concrete handle while keeping its metadata. -/
theorem lazy_load_unload_frame_witness :
    (wNucL.load_xs_from_hdf5 wFile = wNucL) ∧
    ((interp_xs (fun q => q) wFile wNucF 400 10).2 =
        wNucF.load_xs_from_hdf5 wFile ∧
      ((interp_xs (fun q => q) wFile wNucF 400 10).2).loaded = true) ∧
    (wNucF.unload.absorption = none ∧ wNucF.unload.scatter = none ∧
      wNucF.unload.p1_scatter = none ∧ wNucF.unload.fission = none ∧
      wNucF.unload.nu = none ∧ wNucF.unload.chi = none ∧
      wNucF.unload.name = wNucF.name ∧ wNucF.unload.label = wNucF.label ∧
      wNucF.unload.temperatures = wNucF.temperatures ∧
      wNucF.unload.dilutions = wNucF.dilutions ∧
      wNucF.unload.awr = wNucF.awr ∧
      wNucF.unload.potential_xs = wNucF.potential_xs ∧
      wNucF.unload.ZA = wNucF.ZA ∧ wNucF.unload.fissile = wNucF.fissile ∧
      wNucF.unload.resonant = wNucF.resonant) ∧
    (wNDL.unload.nuclide_handles =
      wNDL.nuclide_handles.map fun p => (p.1, p.2.unload)) :=
  lazy_load_unload_frame (fun q => q) wFile wNucL wNucF wNDL 400 10
    (loaded_load wFile wNucF)

/-- Witness for C9 on the concrete two-point grids. -/
theorem interp_params_bounds_witness :
    (2 ≤ ([300, 600] : List ℚ).length ∧ 2 ≤ ([1, 100] : List ℚ).length) ∧
    (((get_temp_interp_params (fun q : ℚ => q) 400 [300, 600]).1 <
          ([300, 600] : List ℚ).length ∧
        0 ≤ (get_temp_interp_params (fun q : ℚ => q) 400 [300, 600]).2 ∧
        (get_temp_interp_params (fun q : ℚ => q) 400 [300, 600]).2 ≤ 1 ∧
        (0 < (get_temp_interp_params (fun q : ℚ => q) 400 [300, 600]).2 →
          (get_temp_interp_params (fun q : ℚ => q) 400 [300, 600]).1 + 1 <
            ([300, 600] : List ℚ).length)) ∧
      ((get_dil_interp_params (50 : ℚ) [1, 100]).1 <
          ([1, 100] : List ℚ).length ∧
        0 ≤ (get_dil_interp_params (50 : ℚ) [1, 100]).2 ∧
        (get_dil_interp_params (50 : ℚ) [1, 100]).2 ≤ 1 ∧
        (0 < (get_dil_interp_params (50 : ℚ) [1, 100]).2 →
          (get_dil_interp_params (50 : ℚ) [1, 100]).1 + 1 <
            ([1, 100] : List ℚ).length))) :=
  ⟨⟨by norm_num, by norm_num⟩,
    interp_params_bounds (fun q : ℚ => q) 400 50 [300, 600] [1, 100]
      (by norm_num) (by norm_num)⟩

lemma half_weight (phi : K) (h : 0 < phi) :
    1 / 2 * phi / (1 / 2 * phi + 1 / 2 * phi) = 1 / 2 := by
  have h2 : (1 / 2 : K) * phi + 1 / 2 * phi = phi := by ring
  rw [h2, mul_div_assoc, div_self h.ne', mul_one]

lemma interp_xs_pure_Et (sq : K → K) (nuc : NuclideHandle K G)
    (temp dil : K) (g : Fin G) :
    (interp_xs_pure sq nuc temp dil).Et g =
      (interp_xs_pure sq nuc temp dil).Ea g +
        ∑ gp, (interp_xs_pure sq nuc temp dil).Es g gp := by
  simp only [interp_xs_pure]
  rw [sum_ite_diag]
  ring

/-- With `b1 = b2 = 1/2` and equal background cross sections the two-term
rational collapse: `two_term_xs` returns exactly the `interp_xs` cross
section, provided the narrow-resonance flux is well defined and positive
(`0 < σ_pot + σ`, `Σa ≥ 0`) and the interpolated χ is either trivial or a
unit-sum spectrum with positive total νΣf. -/
lemma two_term_same_inputs (sq : ℚ → ℚ) (file : String → H5NuclideData ℚ G)
    (nuc0 : NuclideHandle ℚ G) (temp sig : ℚ)
    (hpot : 0 < nuc0.potential_xs + sig)
    (hEa : ∀ g, 0 ≤ ((interp_xs sq file nuc0 temp sig).1).Ea g)
    (hchi :
      (∀ g, ((interp_xs sq file nuc0 temp sig).1).chi g = 0 ∧
        ((interp_xs sq file nuc0 temp sig).1).vEf g = 0) ∨
      (0 < ∑ g, ((interp_xs sq file nuc0 temp sig).1).vEf g ∧
        (∑ g, ((interp_xs sq file nuc0 temp sig).1).chi g) = 1)) :
    (two_term_xs sq file nuc0 temp (1 / 2) (1 / 2) sig sig).1 =
      (interp_xs sq file nuc0 temp sig).1 := by
  rw [interp_xs_fst] at hEa hchi ⊢
  simp only [two_term_xs, interp_xs_eq, load_load, load_potential_xs]
  set XS := interp_xs_pure sq (nuc0.load_xs_from_hdf5 file) temp sig with hXS
  set pot := nuc0.potential_xs with hpotdef
  have hflux : ∀ g : Fin G, 0 < (pot + sig) / (XS.Ea g + pot + sig) :=
    fun g => div_pos hpot (by have := hEa g; linarith)
  have hw : ∀ g : Fin G,
      1 / 2 * ((pot + sig) / (XS.Ea g + pot + sig)) /
          (1 / 2 * ((pot + sig) / (XS.Ea g + pot + sig)) +
            1 / 2 * ((pot + sig) / (XS.Ea g + pot + sig))) = 1 / 2 :=
    fun g => half_weight _ (hflux g)
  simp only [hw]
  refine CrossSection.ext ?_ ?_ ?_ ?_ ?_ ?_ ?_
  · funext g
    dsimp only
    have hsum : (∑ gp, (1 / 2 * XS.Es g gp + 1 / 2 * XS.Es g gp)) =
        ∑ gp, XS.Es g gp := Finset.sum_congr rfl fun _ _ => by ring
    rw [hsum, interp_xs_pure_Et]
    ring
  · funext g; dsimp only; ring
  · funext g gp; dsimp only; ring
  · funext g gp; dsimp only; ring
  · funext g; dsimp only; ring
  · funext g; dsimp only; ring
  · dsimp only
    have hv : (∑ g, 1 / 2 * XS.vEf g) + (∑ g, 1 / 2 * XS.vEf g) =
        ∑ g, XS.vEf g := by
      rw [← Finset.sum_add_distrib]
      exact Finset.sum_congr rfl fun _ _ => by ring
    rcases hchi with hA | hB
    · rw [if_neg]
      · funext g
        exact ((hA g).1).symm
      · rw [hv]
        rw [Finset.sum_eq_zero fun g _ => (hA g).2]
        exact lt_irrefl 0
    · rw [if_pos (by rw [hv]; exact hB.1)]
      have hne : (∑ g, 1 / 2 * XS.vEf g) + (∑ g, 1 / 2 * XS.vEf g) ≠ 0 := by
        rw [hv]; exact hB.1.ne'
      have hc : ∀ g : Fin G,
          ((∑ gp, 1 / 2 * XS.vEf gp) * XS.chi g +
              (∑ gp, 1 / 2 * XS.vEf gp) * XS.chi g) /
            ((∑ gp, 1 / 2 * XS.vEf gp) + (∑ gp, 1 / 2 * XS.vEf gp)) =
          XS.chi g := fun g => by
        rw [div_eq_iff hne]; ring
      simp only [hc]
      rw [if_pos (by rw [hB.2]; exact one_pos), hB.2]
      funext g
      exact div_one _

/-- C2: with `b1 = b2 = 1/2` and both background cross sections equal to σ,
`two_term_xs(name, T, 1/2, 1/2, σ, σ)` agrees with `interp_xs(name, T, σ)`
entry for entry (Σt, Σa, Σs, Σs₁, Σf, νΣf, χ) to within 1e-12 (here the
agreement is exact, so each difference is bounded by 1e-12), under the
narrow-resonance well-posedness conditions on the nuclide data: positive
`σ_pot + σ`, nonnegative interpolated Σa, and an interpolated χ/νΣf pair
that is either identically zero or a unit-sum spectrum with positive total
νΣf. -/
theorem two_term_reduces_to_interp (sq : ℚ → ℚ)
    (file : String → H5NuclideData ℚ G) (nuc0 : NuclideHandle ℚ G)
    (temp sig : ℚ) (hpot : 0 < nuc0.potential_xs + sig)
    (hEa : ∀ g, 0 ≤ ((interp_xs sq file nuc0 temp sig).1).Ea g)
    (hchi :
      (∀ g, ((interp_xs sq file nuc0 temp sig).1).chi g = 0 ∧
        ((interp_xs sq file nuc0 temp sig).1).vEf g = 0) ∨
      (0 < ∑ g, ((interp_xs sq file nuc0 temp sig).1).vEf g ∧
        (∑ g, ((interp_xs sq file nuc0 temp sig).1).chi g) = 1))
    (g gp : Fin G) :
    |((two_term_xs sq file nuc0 temp (1 / 2) (1 / 2) sig sig).1).Et g -
        ((interp_xs sq file nuc0 temp sig).1).Et g| ≤ 1 / 10 ^ 12 ∧
    |((two_term_xs sq file nuc0 temp (1 / 2) (1 / 2) sig sig).1).Ea g -
        ((interp_xs sq file nuc0 temp sig).1).Ea g| ≤ 1 / 10 ^ 12 ∧
    |((two_term_xs sq file nuc0 temp (1 / 2) (1 / 2) sig sig).1).Es g gp -
        ((interp_xs sq file nuc0 temp sig).1).Es g gp| ≤ 1 / 10 ^ 12 ∧
    |((two_term_xs sq file nuc0 temp (1 / 2) (1 / 2) sig sig).1).Es1 g gp -
        ((interp_xs sq file nuc0 temp sig).1).Es1 g gp| ≤ 1 / 10 ^ 12 ∧
    |((two_term_xs sq file nuc0 temp (1 / 2) (1 / 2) sig sig).1).Ef g -
        ((interp_xs sq file nuc0 temp sig).1).Ef g| ≤ 1 / 10 ^ 12 ∧
    |((two_term_xs sq file nuc0 temp (1 / 2) (1 / 2) sig sig).1).vEf g -
        ((interp_xs sq file nuc0 temp sig).1).vEf g| ≤ 1 / 10 ^ 12 ∧
    |((two_term_xs sq file nuc0 temp (1 / 2) (1 / 2) sig sig).1).chi g -
        ((interp_xs sq file nuc0 temp sig).1).chi g| ≤ 1 / 10 ^ 12 := by
  rw [two_term_same_inputs sq file nuc0 temp sig hpot hEa hchi]
  norm_num

/-- From the spec (section 4.10): the per-group narrow-resonance flux
`φ_i,g = (σ_pot + σ_bg,i) / (Σa,i,g + σ_pot + σ_bg,i)`. -/
def spec_nr_flux (pot bg ea : K) : K := (pot + bg) / (ea + pot + bg)

/-- From the spec (section 4.10): the group-wise weight
`f_i,g = b_i φ_i,g / (b1 φ_1,g + b2 φ_2,g)`. -/
def spec_weight (bi phii b1 phi1 b2 phi2 : K) : K :=
  bi * phii / (b1 * phi1 + b2 * phi2)

lemma chi_renorm (S1 S2 : K) (c1 c2 : Fin G → K) (hpos : 0 < S1 + S2)
    (hnorm : S1 * (∑ x, c1 x) + S2 * (∑ x, c2 x) = S1 + S2) (g : Fin G) :
    (if 0 < S1 + S2 then
      if 0 < ∑ x, (S1 * c1 x + S2 * c2 x) / (S1 + S2) then
        (fun x => ((S1 * c1 x + S2 * c2 x) / (S1 + S2)) /
          ∑ y, (S1 * c1 y + S2 * c2 y) / (S1 + S2))
      else fun x => (S1 * c1 x + S2 * c2 x) / (S1 + S2)
    else fun _ => 0) g = (S1 * c1 g + S2 * c2 g) / (S1 + S2) := by
  have hcs : (∑ x, (S1 * c1 x + S2 * c2 x) / (S1 + S2)) = 1 := by
    rw [← Finset.sum_div, Finset.sum_add_distrib, ← Finset.mul_sum,
      ← Finset.mul_sum, hnorm, div_self hpos.ne']
  rw [if_pos hpos, hcs, if_pos one_pos]
  exact div_one _

/-- C3: `two_term_xs` computes the narrow-resonance fluxes from the two
interpolated sets, the group-wise weights `f_i,g`, and returns the
f-weighted averages of Σa, Σf, νΣf, Σs and Σs₁; χ is the average weighted by
the two summed νΣf contributions `S_i = Σ_g f_i,g νΣf_i,g` (stated under the
conditions that make the subsequent renormalisation a no-op: positive
`S1 + S2` and weighted χ sums combining to `S1 + S2`). -/
theorem two_term_weighted_average (sq : ℚ → ℚ)
    (file : String → H5NuclideData ℚ G) (nuc0 : NuclideHandle ℚ G)
    (temp b1 b2 bg1 bg2 : ℚ) (g gp : Fin G) :
    (let xs1 := (interp_xs sq file nuc0 temp bg1).1
     let xs2 := (interp_xs sq file nuc0 temp bg2).1
     let pot := nuc0.potential_xs
     let phi1 : Fin G → ℚ := fun x => spec_nr_flux pot bg1 (xs1.Ea x)
     let phi2 : Fin G → ℚ := fun x => spec_nr_flux pot bg2 (xs2.Ea x)
     let f1 : Fin G → ℚ :=
       fun x => spec_weight b1 (phi1 x) b1 (phi1 x) b2 (phi2 x)
     let f2 : Fin G → ℚ :=
       fun x => spec_weight b2 (phi2 x) b1 (phi1 x) b2 (phi2 x)
     let tt := (two_term_xs sq file nuc0 temp b1 b2 bg1 bg2).1
     let S1 := ∑ x, f1 x * xs1.vEf x
     let S2 := ∑ x, f2 x * xs2.vEf x
     tt.Ea g = f1 g * xs1.Ea g + f2 g * xs2.Ea g ∧
     tt.Ef g = f1 g * xs1.Ef g + f2 g * xs2.Ef g ∧
     tt.vEf g = f1 g * xs1.vEf g + f2 g * xs2.vEf g ∧
     tt.Es g gp = f1 g * xs1.Es g gp + f2 g * xs2.Es g gp ∧
     tt.Es1 g gp = f1 g * xs1.Es1 g gp + f2 g * xs2.Es1 g gp ∧
     (0 < S1 + S2 →
       S1 * (∑ x, xs1.chi x) + S2 * (∑ x, xs2.chi x) = S1 + S2 →
       tt.chi g = (S1 * xs1.chi g + S2 * xs2.chi g) / (S1 + S2))) := by
  simp only [two_term_xs, interp_xs_eq, load_load, load_potential_xs,
    spec_nr_flux, spec_weight]
  refine ⟨trivial, trivial, trivial, trivial, trivial, ?_⟩
  intro hpos hnorm
  exact chi_renorm _ _ _ _ hpos hnorm g

/-- Evaluation of `interp_xs` on the concrete fixture at `T = 400`,
`σ_d = 10` (temperature factor 1/3 on bracket (300, 600), dilution factor
1/11 on bracket (1, 100), constant tabulated data). -/
lemma wNucF_interp_eval :
    ((interp_xs (fun q => q) wFile wNucF 400 10).1).Ea 0 = 1 ∧
    ((interp_xs (fun q => q) wFile wNucF 400 10).1).vEf 0 = 2 ∧
    ((interp_xs (fun q => q) wFile wNucF 400 10).1).chi 0 = 1 := by
  rw [interp_xs_fst]
  norm_num [interp_xs_pure, NuclideHandle.load_xs_from_hdf5,
    NuclideHandle.loaded, wNucF, wFile, wH5, get_temp_interp_params,
    get_dil_interp_params, bracketSearch, interp_1d, interp_1d_temp,
    interp_2d, zero2, zero3, zero4]

/-- Witness for C2 on the concrete fissile handle at `T = 400`, `σ = 10`. -/
theorem two_term_reduces_to_interp_witness :
    (0 : ℚ) < wNucF.potential_xs + 10 ∧
    |((two_term_xs (fun q => q) wFile wNucF 400 (1 / 2) (1 / 2) 10 10).1).Et
        0 - ((interp_xs (fun q => q) wFile wNucF 400 10).1).Et 0| ≤
      1 / 10 ^ 12 :=
  ⟨by norm_num [wNucF],
    (two_term_reduces_to_interp (fun q => q) wFile wNucF 400 10
      (by norm_num [wNucF])
      (fun g => by
        rw [Subsingleton.elim g 0, wNucF_interp_eval.1]
        norm_num)
      (Or.inr
        ⟨by rw [Fin.sum_univ_one, wNucF_interp_eval.2.1]; norm_num,
          by rw [Fin.sum_univ_one, wNucF_interp_eval.2.2]⟩)
      0 0).1⟩

lemma interp_pure_chi_sum (sq : K → K) (nuc : NuclideHandle K G)
    (temp dil : K) (hfiss : nuc.fissile = true)
    (htab : ∀ it : ℕ, (∑ g, nuc.chi.getD zero2 it g) = 1) :
    (∑ g, (interp_xs_pure sq nuc temp dil).chi g) = 1 := by
  simp only [interp_xs_pure, hfiss, if_true, interp_1d_temp]
  by_cases hf : 0 < (get_temp_interp_params sq temp nuc.temperatures).2
  · simp only [hf, if_true]
    rw [Finset.sum_add_distrib, ← Finset.mul_sum, ← Finset.mul_sum, htab,
      htab, mul_one, mul_one]
    ring
  · simp only [hf, if_false]
    exact htab _

lemma chi_renorm_sum (S1 S2 : K) (c1 c2 : Fin G → K) (hpos : 0 < S1 + S2)
    (h1 : (∑ x, c1 x) = 1) (h2 : (∑ x, c2 x) = 1) :
    (∑ g, (if 0 < S1 + S2 then
      if 0 < ∑ x, (S1 * c1 x + S2 * c2 x) / (S1 + S2) then
        (fun x => ((S1 * c1 x + S2 * c2 x) / (S1 + S2)) /
          ∑ y, (S1 * c1 y + S2 * c2 y) / (S1 + S2))
      else fun x => (S1 * c1 x + S2 * c2 x) / (S1 + S2)
    else fun _ => 0) g) = 1 := by
  have hcs : (∑ x, (S1 * c1 x + S2 * c2 x) / (S1 + S2)) = 1 := by
    rw [← Finset.sum_div, Finset.sum_add_distrib, ← Finset.mul_sum,
      ← Finset.mul_sum, h1, h2, mul_one, mul_one, div_self hpos.ne']
  simp only [hcs, hpos, if_true, zero_lt_one, div_one]

/-- The χ of `two_term_xs`, for abstract interpolated sets `X1`, `X2` with
positive narrow-resonance fluxes, nonnegative νΣf with positive total, and
unit χ sums, sums to one. -/
lemma two_term_chi_sum (P bg1 bg2 b1 b2 : K) (X1 X2 : CrossSection K G)
    (hb1 : 0 < b1) (hb2 : 0 < b2) (hp1 : 0 < P + bg1) (hp2 : 0 < P + bg2)
    (hEa1 : ∀ g, 0 ≤ X1.Ea g) (hEa2 : ∀ g, 0 ≤ X2.Ea g)
    (hv1 : ∀ g, 0 ≤ X1.vEf g) (hv2 : ∀ g, 0 ≤ X2.vEf g)
    (hvpos : 0 < ∑ g, X1.vEf g)
    (hc1 : (∑ g, X1.chi g) = 1) (hc2 : (∑ g, X2.chi g) = 1) :
    (let f1 : Fin G → K := fun x =>
       b1 * ((P + bg1) / (X1.Ea x + P + bg1)) /
         (b1 * ((P + bg1) / (X1.Ea x + P + bg1)) +
           b2 * ((P + bg2) / (X2.Ea x + P + bg2)))
     let f2 : Fin G → K := fun x =>
       b2 * ((P + bg2) / (X2.Ea x + P + bg2)) /
         (b1 * ((P + bg1) / (X1.Ea x + P + bg1)) +
           b2 * ((P + bg2) / (X2.Ea x + P + bg2)))
     let S1 := ∑ x, f1 x * X1.vEf x
     let S2 := ∑ x, f2 x * X2.vEf x
     (∑ g, (if 0 < S1 + S2 then
       if 0 < ∑ x, (S1 * X1.chi x + S2 * X2.chi x) / (S1 + S2) then
         (fun x => ((S1 * X1.chi x + S2 * X2.chi x) / (S1 + S2)) /
           ∑ y, (S1 * X1.chi y + S2 * X2.chi y) / (S1 + S2))
       else fun x => (S1 * X1.chi x + S2 * X2.chi x) / (S1 + S2)
     else fun _ => 0) g) = 1) := by
  intro f1 f2 S1 S2
  have hphi1 : ∀ x : Fin G, 0 < (P + bg1) / (X1.Ea x + P + bg1) :=
    fun x => div_pos hp1 (by have := hEa1 x; linarith)
  have hphi2 : ∀ x : Fin G, 0 < (P + bg2) / (X2.Ea x + P + bg2) :=
    fun x => div_pos hp2 (by have := hEa2 x; linarith)
  have hf1 : ∀ x : Fin G, 0 < f1 x := fun x =>
    div_pos (mul_pos hb1 (hphi1 x))
      (add_pos (mul_pos hb1 (hphi1 x)) (mul_pos hb2 (hphi2 x)))
  have hf2 : ∀ x : Fin G, 0 < f2 x := fun x =>
    div_pos (mul_pos hb2 (hphi2 x))
      (add_pos (mul_pos hb1 (hphi1 x)) (mul_pos hb2 (hphi2 x)))
  have hex : ∃ x : Fin G, 0 < X1.vEf x := by
    rcases Finset.exists_lt_of_sum_lt
      (f := fun _ : Fin G => (0 : K)) (g := fun x => X1.vEf x)
      (by simpa using hvpos) with ⟨x, _, hx⟩
    exact ⟨x, hx⟩
  have hS1 : 0 < S1 := by
    rcases hex with ⟨x0, hx0⟩
    refine Finset.sum_pos'
      (fun x _ => mul_nonneg (hf1 x).le (hv1 x)) ⟨x0, Finset.mem_univ x0, ?_⟩
    exact mul_pos (hf1 x0) hx0
  have hS2 : 0 ≤ S2 :=
    Finset.sum_nonneg fun x _ => mul_nonneg (hf2 x).le (hv2 x)
  exact chi_renorm_sum S1 S2 X1.chi X2.chi (by linarith) hc1 hc2

lemma ring_step_chi_ne (sq asn : K → K) (pi : K)
    (file : String → H5NuclideData K G)
    (pot temp a1 a2 b1 b2 mat N Rfuel Rin Rout : K) (acc : RingAcc K G)
    (m : ℕ) (hm : m ≠ 1) :
    (ring_step sq asn pi file pot temp a1 a2 b1 b2 mat N Rfuel Rin Rout
      acc m).chi = acc.chi := by
  show (if m = 1 then _ else acc.chi) = acc.chi
  rw [if_neg hm]

lemma ring_step_chi_one (sq asn : K → K) (pi : K)
    (file : String → H5NuclideData K G)
    (pot temp a1 a2 b1 b2 mat N Rfuel Rin Rout : K) (acc : RingAcc K G) :
    (ring_step sq asn pi file pot temp a1 a2 b1 b2 mat N Rfuel Rin Rout
      acc 1).chi =
      ((interp_xs sq file acc.nuc temp
        (if 0 < (eta_lm_core sq asn pi 1 Rfuel Rin Rout).2 then
          (mat - N * pot + a1 / (eta_lm_core sq asn pi 1 Rfuel Rin Rout).2) /
            N
        else 10 ^ 10)).1).chi := rfl

/-- The χ returned by the four-lump computation is the interpolated χ of the
first lump (the handle state being the freshly loaded one). -/
lemma ring_core_chi (sq asn : ℚ → ℚ) (pi : ℚ)
    (file : String → H5NuclideData ℚ G) (nuc0 : NuclideHandle ℚ G)
    (temp a1 a2 b1 b2 mat N Rfuel Rin Rout : ℚ) :
    ((ring_two_term_core sq asn pi file nuc0 temp a1 a2 b1 b2 mat N Rfuel Rin
      Rout).1).chi =
      (interp_xs_pure sq (nuc0.load_xs_from_hdf5 file) temp
        (if 0 < (eta_lm_core sq asn pi 1 Rfuel Rin Rout).2 then
          (mat - N * nuc0.potential_xs +
            a1 / (eta_lm_core sq asn pi 1 Rfuel Rin Rout).2) / N
        else 10 ^ 10)).chi := by
  simp only [ring_two_term_core]
  rw [List.foldl_cons, List.foldl_cons, List.foldl_cons, List.foldl_cons,
    List.foldl_nil,
    ring_step_chi_ne _ _ _ _ _ _ _ _ _ _ _ _ _ _ _ _ 4 (by norm_num),
    ring_step_chi_ne _ _ _ _ _ _ _ _ _ _ _ _ _ _ _ _ 3 (by norm_num),
    ring_step_chi_ne _ _ _ _ _ _ _ _ _ _ _ _ _ _ _ _ 2 (by norm_num),
    ring_step_chi_one, interp_xs_fst]

/-- C6: for a fissile nuclide whose tabulated χ rows each sum to 1, the χ of
the cross sections produced by `interp_xs`, `two_term_xs` and the
`ring_two_term_xs` computation sums to 1 within 1e-10 (exactly, in fact).
For `two_term_xs` the group weights must be well defined and the fission
production nontrivial: positive `b1`, `b2`, positive `σ_pot + σ_bg,i`,
nonnegative interpolated Σa and νΣf, and positive total interpolated νΣf. -/
theorem chi_normalized (sq asn : ℚ → ℚ) (pi : ℚ)
    (file : String → H5NuclideData ℚ G) (nuc0 : NuclideHandle ℚ G)
    (temp bg1 bg2 b1 b2 a1 a2 mat N Rfuel Rin Rout : ℚ)
    (hfiss : nuc0.fissile = true)
    (htab : ∀ it : ℕ,
      (∑ g, (nuc0.load_xs_from_hdf5 file).chi.getD zero2 it g) = 1)
    (hb1 : 0 < b1) (hb2 : 0 < b2)
    (hp1 : 0 < nuc0.potential_xs + bg1) (hp2 : 0 < nuc0.potential_xs + bg2)
    (hEa1 : ∀ g, 0 ≤ ((interp_xs sq file nuc0 temp bg1).1).Ea g)
    (hEa2 : ∀ g, 0 ≤ ((interp_xs sq file nuc0 temp bg2).1).Ea g)
    (hv1 : ∀ g, 0 ≤ ((interp_xs sq file nuc0 temp bg1).1).vEf g)
    (hv2 : ∀ g, 0 ≤ ((interp_xs sq file nuc0 temp bg2).1).vEf g)
    (hvpos : 0 < ∑ g, ((interp_xs sq file nuc0 temp bg1).1).vEf g) :
    |(∑ g, ((interp_xs sq file nuc0 temp bg1).1).chi g) - 1| ≤ 1 / 10 ^ 10 ∧
    |(∑ g, ((two_term_xs sq file nuc0 temp b1 b2 bg1 bg2).1).chi g) - 1| ≤
      1 / 10 ^ 10 ∧
    |(∑ g, ((ring_two_term_core sq asn pi file nuc0 temp a1 a2 b1 b2 mat N
        Rfuel Rin Rout).1).chi g) - 1| ≤ 1 / 10 ^ 10 := by
  have hfissL : (nuc0.load_xs_from_hdf5 file).fissile = true := by
    rw [load_fissile]; exact hfiss
  have hc : ∀ d : ℚ,
      (∑ g, (interp_xs_pure sq (nuc0.load_xs_from_hdf5 file) temp d).chi g) =
        1 := fun d =>
    interp_pure_chi_sum sq (nuc0.load_xs_from_hdf5 file) temp d hfissL htab
  rw [interp_xs_fst] at hEa1 hEa2 hv1 hv2 hvpos
  refine ⟨?_, ?_, ?_⟩
  · rw [interp_xs_fst, hc bg1]
    norm_num
  · have h2t : (∑ g,
        ((two_term_xs sq file nuc0 temp b1 b2 bg1 bg2).1).chi g) = 1 := by
      simp only [two_term_xs, interp_xs_eq, load_load, load_potential_xs]
      exact two_term_chi_sum nuc0.potential_xs bg1 bg2 b1 b2 _ _ hb1 hb2 hp1
        hp2 hEa1 hEa2 hv1 hv2 hvpos (hc bg1) (hc bg2)
    rw [h2t]
    norm_num
  · rw [ring_core_chi, hc]
    norm_num

/-- Cross section interpolated on the concrete fixture. -/
def wI : CrossSection ℚ 1 := (interp_xs (fun q => q) wFile wNucF 400 10).1

/-- Narrow-resonance flux on the concrete fixture. -/
def wPhi : Fin 1 → ℚ := fun x => spec_nr_flux wNucF.potential_xs 10 (wI.Ea x)

/-- Weight on the concrete fixture (both terms coincide). -/
def wFw : Fin 1 → ℚ :=
  fun x => spec_weight (1 / 2) (wPhi x) (1 / 2) (wPhi x) (1 / 2) (wPhi x)

/-- Summed νΣf contribution on the concrete fixture. -/
def wS : ℚ := ∑ x, wFw x * wI.vEf x

/-- Witness for C3: on the concrete fixture the χ side conditions hold and
the χ of `two_term_xs` is the νΣf-weighted average. -/
theorem two_term_weighted_average_witness :
    (0 : ℚ) < wS + wS ∧
    (wS * (∑ x, wI.chi x) + wS * (∑ x, wI.chi x) = wS + wS) ∧
    ((two_term_xs (fun q => q) wFile wNucF 400 (1 / 2) (1 / 2) 10 10).1).chi
        0 = (wS * wI.chi 0 + wS * wI.chi 0) / (wS + wS) := by
  have hEa : wI.Ea 0 = 1 := wNucF_interp_eval.1
  have hv : wI.vEf 0 = 2 := wNucF_interp_eval.2.1
  have hc : wI.chi 0 = 1 := wNucF_interp_eval.2.2
  have hS : wS = 1 := by
    rw [wS, Fin.sum_univ_one, hv]
    rw [show wFw 0 = 1 / 2 by
      rw [wFw, wPhi, hEa]
      norm_num [spec_weight, spec_nr_flux, wNucF]]
    norm_num
  have h1 : (0 : ℚ) < wS + wS := by rw [hS]; norm_num
  have h2 : wS * (∑ x, wI.chi x) + wS * (∑ x, wI.chi x) = wS + wS := by
    rw [Fin.sum_univ_one, hS, hc]
    norm_num
  exact ⟨h1, h2,
    (two_term_weighted_average (fun q => q) wFile wNucF 400 (1 / 2) (1 / 2)
      10 10 0 0).2.2.2.2.2 h1 h2⟩

/-- Witness for C6 on the concrete fissile fixture. -/
theorem chi_normalized_witness :
    wNucF.fissile = true ∧
    (|(∑ g, ((interp_xs (fun q => q) wFile wNucF 400 10).1).chi g) - 1| ≤
        1 / 10 ^ 10 ∧
      |(∑ g, ((two_term_xs (fun q => q) wFile wNucF 400 (1 / 2) (1 / 2) 10
          10).1).chi g) - 1| ≤ 1 / 10 ^ 10 ∧
      |(∑ g, ((ring_two_term_core (fun q => q) (fun q => q) 3 wFile wNucF 400
          1 1 (1 / 2) (1 / 2) 1 1 2 1 2).1).chi g) - 1| ≤ 1 / 10 ^ 10) :=
  ⟨rfl,
    chi_normalized (fun q => q) (fun q => q) 3 wFile wNucF 400 10 10 (1 / 2)
      (1 / 2) 1 1 1 1 2 1 2 rfl
      (fun it => by
        rw [Fin.sum_univ_one]
        norm_num [NuclideHandle.load_xs_from_hdf5, NuclideHandle.loaded,
          wNucF, wFile, wH5, zero2])
      (by norm_num) (by norm_num) (by norm_num [wNucF]) (by norm_num [wNucF])
      (fun g => by rw [Subsingleton.elim g 0, wNucF_interp_eval.1]; norm_num)
      (fun g => by rw [Subsingleton.elim g 0, wNucF_interp_eval.1]; norm_num)
      (fun g => by
        rw [Subsingleton.elim g 0, wNucF_interp_eval.2.1]; norm_num)
      (fun g => by
        rw [Subsingleton.elim g 0, wNucF_interp_eval.2.1]; norm_num)
      (by rw [Fin.sum_univ_one, wNucF_interp_eval.2.1]; norm_num)⟩

/-- Tabulated data whose absorption records the dilution index, making the
chosen dilution column observable. -/
def c4H5 : H5NuclideData ℝ 1 :=
  ⟨fun _ id _ => (id : ℝ), fun _ _ _ _ => 0, fun _ _ _ _ => 0,
    fun _ _ _ => 0, fun _ _ => 0, fun _ _ => 0⟩

/-- The file oracle for the descending-dilution scenario. -/
def c4File : String → H5NuclideData ℝ 1 := fun _ => c4H5

/-- Handle tabulated at T = (300, 600, 900) K with the dilution grid written
in the literal order of the spec scenario, (1e10, 1000, 100, 10, 1) barns. -/
def c4NucDesc : NuclideHandle ℝ 1 :=
  { name := "U238", label := "U238", temperatures := [300, 600, 900],
    dilutions := [10000000000, 1000, 100, 10, 1], awr := 236,
    potential_xs := 1, ZA := 92238, fissile := false, resonant := true,
    absorption := none, scatter := none, p1_scatter := none, fission := none,
    nu := none, chi := none }

/-- Counterexample to C4 as literally stated: with the dilution grid in the
spec's written order (1e10, 1000, 100, 10, 1), the request `σ_d = 50`
satisfies `dil <= dilutions.front()`, so `get_dil_interp_params` returns
index 0 with factor 0 and `interp_xs` reads the σ_d = 1e10 column (value 0
here) instead of interpolating on the bracket (10, 100), whose claimed
bilinear value is `(1 - 4/9)·A(10) + 4/9·A(100) = 23/9` for this table. -/
theorem interp_dil_descending_counterexample :
    get_dil_interp_params (50 : ℝ) [10000000000, 1000, 100, 10, 1] =
      (0, 0) ∧
    ((interp_xs Real.sqrt c4File c4NucDesc 500 50).1).Ea 0 = 0 ∧
    ((0 : ℝ) ≠ (1 - 4 / 9) * 3 + (4 / 9) * 2) := by
  refine ⟨?_, ?_, by norm_num⟩
  · norm_num [get_dil_interp_params]
  · have hd : get_dil_interp_params (50 : ℝ)
        [10000000000, 1000, 100, 10, 1] = (0, 0) := by
      norm_num [get_dil_interp_params]
    rw [interp_xs_fst]
    norm_num [interp_xs_pure, interp_1d, NuclideHandle.load_xs_from_hdf5,
      NuclideHandle.loaded, c4NucDesc, c4File, c4H5, zero3, hd]

/-- Loaded handle tabulated at T = (300, 600, 900) K with the dilution grid
in the ascending order the search of `get_dil_interp_params` assumes,
(1, 10, 100, 1000, 1e10) barns, holding arbitrary tabulated data. -/
def c4Nuc (G : ℕ) (A : ℕ → ℕ → Fin G → ℝ)
    (S P1 : ℕ → ℕ → Fin G → Fin G → ℝ) : NuclideHandle ℝ G :=
  { name := "U238", label := "U238", temperatures := [300, 600, 900],
    dilutions := [1, 10, 100, 1000, 10000000000], awr := 236,
    potential_xs := 1, ZA := 92238, fissile := false, resonant := true,
    absorption := some A, scatter := some S, p1_scatter := some P1,
    fission := none, nu := none, chi := none }

/-- C4 (amended): for a nuclide tabulated at T = (300, 600, 900) K and
dilutions (1, 10, 100, 1000, 1e10) barns in ascending order, requesting
T = 500 K, σ_d = 50 b yields the temperature bracket index 0 with
`f_T = (√500 - √300) / (√600 - √300)` (unclamped, as it lies in [0, 1]) and
the dilution bracket (10, 100) at index 1 with linear factor
`f_d = (50 - 10) / (100 - 10) = 4/9`, and `interp_xs` returns the bilinear
interpolation: Σa is bilinear in the tabulated absorption, and the stored
self-scatter is the bilinear scatter minus the bilinear p1 diagonal. -/
theorem interp_bilinear_scenario (G : ℕ) (A : ℕ → ℕ → Fin G → ℝ)
    (S P1 : ℕ → ℕ → Fin G → Fin G → ℝ) (file : String → H5NuclideData ℝ G)
    (g : Fin G) :
    get_temp_interp_params Real.sqrt 500 [300, 600, 900] =
      (0, (Real.sqrt 500 - Real.sqrt 300) /
        (Real.sqrt 600 - Real.sqrt 300)) ∧
    get_dil_interp_params (50 : ℝ) [1, 10, 100, 1000, 10000000000] =
      (1, 4 / 9) ∧
    (let fT := (Real.sqrt 500 - Real.sqrt 300) /
       (Real.sqrt 600 - Real.sqrt 300)
     let fd : ℝ := 4 / 9
     ((interp_xs Real.sqrt file (c4Nuc G A S P1) 500 50).1).Ea g =
       (1 - fT) * ((1 - fd) * A 0 1 g + fd * A 0 2 g) +
         fT * ((1 - fd) * A 1 1 g + fd * A 1 2 g) ∧
     ((interp_xs Real.sqrt file (c4Nuc G A S P1) 500 50).1).Es g g =
       ((1 - fT) * ((1 - fd) * S 0 1 g g + fd * S 0 2 g g) +
         fT * ((1 - fd) * S 1 1 g g + fd * S 1 2 g g)) -
       ((1 - fT) * ((1 - fd) * P1 0 1 g g + fd * P1 0 2 g g) +
         fT * ((1 - fd) * P1 1 1 g g + fd * P1 1 2 g g))) := by
  have h35 : Real.sqrt 300 < Real.sqrt 500 :=
    Real.sqrt_lt_sqrt (by norm_num) (by norm_num)
  have h36 : Real.sqrt 300 < Real.sqrt 600 :=
    Real.sqrt_lt_sqrt (by norm_num) (by norm_num)
  have h56 : Real.sqrt 500 ≤ Real.sqrt 600 := Real.sqrt_le_sqrt (by norm_num)
  have hfTpos : 0 < (Real.sqrt 500 - Real.sqrt 300) /
      (Real.sqrt 600 - Real.sqrt 300) :=
    div_pos (by linarith) (by linarith)
  have hfTle : (Real.sqrt 500 - Real.sqrt 300) /
      (Real.sqrt 600 - Real.sqrt 300) ≤ 1 := by
    rw [div_le_one (by linarith)]
    linarith
  have ht : get_temp_interp_params Real.sqrt 500 [300, 600, 900] =
      (0, (Real.sqrt 500 - Real.sqrt 300) /
        (Real.sqrt 600 - Real.sqrt 300)) := by
    norm_num [get_temp_interp_params, bracketSearch, not_lt.mpr hfTpos.le,
      not_lt.mpr hfTle]
  have hd : get_dil_interp_params (50 : ℝ)
      [1, 10, 100, 1000, 10000000000] = (1, 4 / 9) := by
    norm_num [get_dil_interp_params, bracketSearch]
  refine ⟨ht, hd, ?_, ?_⟩
  · rw [interp_xs_fst, load_of_loaded file (c4Nuc G A S P1) rfl]
    norm_num [interp_xs_pure, c4Nuc, ht, hd, interp_1d, if_pos hfTpos]
  · rw [interp_xs_fst, load_of_loaded file (c4Nuc G A S P1) rfl]
    norm_num [interp_xs_pure, c4Nuc, ht, hd, interp_2d, if_pos hfTpos]

/-- Witness for C10 on the concrete non-fissile handle. -/
theorem nonfissile_zero_fission_witness :
    wNucNF.fissile = false ∧
    (((interp_xs (fun q => q) wFile wNucNF 400 10).1).Ef 0 = 0 ∧
      ((interp_xs (fun q => q) wFile wNucNF 400 10).1).vEf 0 = 0 ∧
      ((interp_xs (fun q => q) wFile wNucNF 400 10).1).chi 0 = 0) :=
  ⟨rfl, nonfissile_zero_fission (fun q => q) wFile wNucNF 400 10 rfl 0⟩

end Scarabee
